import Mathlib

/-!
# Verification of the citeease-cli identifier-resolution pipeline

Shallow embedding of the core of the `citeease-cli` repository:

* `src/index.ts` — identifier classification (`recognizeIdentifierType`),
  configuration updates (`updateConfig`), bibliography formatting
  (`formatBibliography`);
* `src/CSLJsonParser.ts` — the source adapters (`fromDOI`, `fromURL`,
  `fromISBN`, `fromPMID`, `fromPMCID`), the helpers
  (`createAuthorsArray`, `createDateObject`), and the renderer adapter
  (`toBibliography`, `getCslFile`, `getLocaleFile`).

JavaScript-specific behaviour (string truthiness, `Invalid Date`
producing `NaN`, `String.prototype.split` with a regex, array/string
destructuring) is modelled explicitly.  External effects — `fetch`
responses, DOM metadata extraction done by jsdom, `Date` parsing, the
citeproc engine, `crypto` ids, filesystem writes — are supplied as
explicit "world" parameters, so every adapter is a total function from
its input, its world and the record store to a result and a new store.
-/

/-- JavaScript numbers as they occur in this code base: either `NaN`
(from reading a component of an `Invalid Date`) or an integer. -/
inductive JsNum where
  | nan : JsNum
  | num : Int → JsNum
deriving DecidableEq, Repr

/-- JS truthiness of a number: `NaN` and `0` are falsy. -/
def JsNum.truthy : JsNum → Bool
  | .nan => false
  | .num n => !(n == 0)

/-- A JS `Date` object: either a valid calendar date or `Invalid Date`
(every component of which reads as `NaN`).  `month` is already the
1-based value `getMonth() + 1`, `day` is `getDate()`. -/
inductive JsDate where
  | invalid : JsDate
  | valid : Int → Int → Int → JsDate
deriving DecidableEq, Repr

/-- `getFullYear()` of a `JsDate`. -/
def JsDate.year : JsDate → JsNum
  | .invalid => .nan
  | .valid y _ _ => .num y

/-- `getMonth() + 1` of a `JsDate`. -/
def JsDate.monthPlus1 : JsDate → JsNum
  | .invalid => .nan
  | .valid _ m _ => .num m

/-- `getDate()` of a `JsDate`. -/
def JsDate.day : JsDate → JsNum
  | .invalid => .nan
  | .valid _ _ d => .num d

/-- A CSL date object `{ "date-parts": [[...]] }` (src/types.ts). -/
structure DateObject where
  dateParts : List (List JsNum)
deriving DecidableEq, Repr

/-- `CSLJsonParser.createDateObject` applied to a `Date` value
(src/CSLJsonParser.ts lines 129-149): the year always enters
`dateParts`; month and day are pushed only when truthy (which is how
an `Invalid Date` yields the single-element part `[NaN]`). -/
def createDateObject (d : JsDate) : DateObject :=
  let year := d.year
  let month := d.monthPlus1
  let day := d.day
  ⟨[year :: (if month.truthy then [month] ++ (if day.truthy then [day] else []) else [])]⟩

/-- An author entry `{ given, family }`. -/
structure Author where
  given : String
  family : String
deriving DecidableEq, Repr

/-- ECMAScript whitespace as used by `String.prototype.trim` and `\s`
(the characters relevant here; all are treated alike by the code). -/
def isJsWs (c : Char) : Bool :=
  c == ' ' || c == '\t' || c == '\n' || c == '\r' || c == '\x0b' ||
  c == '\x0c' || c == '\u00A0' || c == '\u2028' || c == '\u2029' || c == '\uFEFF'

/-- `String.prototype.trim` on a character list. -/
def jsTrim (l : List Char) : List Char :=
  ((l.dropWhile isJsWs).reverse.dropWhile isJsWs).reverse

/-- Helper for `jsSplitWs`: walks the characters, `acc` is the current
token (reversed).  Mirrors `split(/\s+/)`: a separator match emits the
token gathered so far, so leading or trailing whitespace produces empty
tokens exactly as in JavaScript. -/
def jsSplitWsGo : List Char → List Char → List (List Char)
  | [], acc => [acc.reverse]
  | c :: rest, acc =>
    if isJsWs c then
      acc.reverse :: jsSplitWsGo (rest.dropWhile isJsWs) []
    else
      jsSplitWsGo rest (c :: acc)
termination_by l _ => l.length
decreasing_by
  · exact Nat.lt_succ_of_le (List.dropWhile_sublist _).length_le
  · simp

/-- `author.split(/\s+/)` (src/CSLJsonParser.ts line 115). -/
def jsSplitWs (s : String) : List String :=
  (jsSplitWsGo s.data []).map List.asString

/-- `CSLJsonParser.createAuthorsArray` (src/CSLJsonParser.ts lines
113-120): split each name on whitespace, first token (or `""`) is the
given name, the rest joined by spaces is the family name. -/
def createAuthorsArray (authors : List String) : List Author :=
  authors.map fun author =>
    match jsSplitWs author with
    | [] => ⟨"", ""⟩  -- unreachable: jsSplitWs always returns at least one token
    | given :: names => ⟨given, String.intercalate (" ") names⟩

/-- JS truthiness filter for an optional string: `undefined` and `""`
are falsy. -/
def jsTruthyStr : Option String → Option String
  | none => none
  | some s => if s == "" then none else some s

/-- `a || b` for an optional string `a` and a defaulting string `b`. -/
def jsOrStr (a : Option String) (b : String) : String :=
  match jsTruthyStr a with
  | some s => s
  | none => b

/-! ## Identifier classifier (src/index.ts `recognizeIdentifierType`) -/

/-- The identifier type union of src/index.ts (the string literal
`"undefined"` is the constructor `undef`). -/
inductive IdentifierType where
  | URL | DOI | PMCID | PMID | ISBN | undef
deriving DecidableEq, Repr

/-- `"url:"` as characters. -/
def urlPreL : List Char := ['u', 'r', 'l', ':']
/-- `"doi:"` as characters. -/
def doiPreL : List Char := ['d', 'o', 'i', ':']
/-- `"pmcid:"` as characters. -/
def pmcidPreL : List Char := ['p', 'm', 'c', 'i', 'd', ':']
/-- `"pmid:"` as characters. -/
def pmidPreL : List Char := ['p', 'm', 'i', 'd', ':']
/-- `"isbn:"` as characters. -/
def isbnPreL : List Char := ['i', 's', 'b', 'n', ':']

/-- The character class `[-._;()/:a-zA-Z0-9]` of the DOI pattern. -/
def doiBodyChar (c : Char) : Bool :=
  c.isAlpha || c.isDigit ||
  c == '-' || c == '.' || c == '_' || c == ';' || c == '(' || c == ')' || c == '/' || c == ':'

/-- The core of the DOI pattern after any resolver prefix:
`10\.\d{4,9}\/[-._;()/:a-zA-Z0-9]+$`.  Since the digit run is followed
by a literal `/` and `/` is not a digit, the regex matches iff the
maximal digit run after `10.` has length 4..9 and is followed by `/`
and a non-empty body of class characters. -/
def doiCore (cs : List Char) : Bool :=
  (['1', '0', '.'].isPrefixOf cs) &&
  (let rest := cs.drop 3
   let ds := (rest.takeWhile Char.isDigit).length
   decide (4 ≤ ds) && decide (ds ≤ 9) &&
   (match rest.drop ds with
    | '/' :: tail => !tail.isEmpty && tail.all doiBodyChar
    | _ => false))

/-- The seven alternatives of the optional resolver group
`((https?:\/\/)?(?:dx\.)?doi\.org\/)?` (the empty alternative is
handled separately in `doiTest`). -/
def doiResolvers : List (List Char) :=
  [("doi.org/").data, ("dx.doi.org/").data,
   ("http://doi.org/").data, ("https://doi.org/").data,
   ("http://dx.doi.org/").data, ("https://dx.doi.org/").data]

/-- The DOI pattern
`/^((https?:\/\/)?(?:dx\.)?doi\.org\/)?10\.\d{4,9}\/[-._;()/:a-zA-Z0-9]+$/`. -/
def doiTest (cs : List Char) : Bool :=
  doiCore cs || doiResolvers.any fun p => p.isPrefixOf cs && doiCore (cs.drop p.length)

/-- The character class `[a-zA-Z0-9-._~:/?#[\]@!$&'()*+,;=]` of the URL
pattern. -/
def urlChar (c : Char) : Bool :=
  c.isAlpha || c.isDigit ||
  c == '-' || c == '.' || c == '_' || c == '~' || c == ':' || c == '/' ||
  c == '?' || c == '#' || c == '[' || c == ']' || c == '@' || c == '!' ||
  c == '$' || c == '&' || c == '\'' || c == '(' || c == ')' || c == '*' ||
  c == '+' || c == ',' || c == ';' || c == '='

/-- `"https://"` as characters. -/
def httpsL : List Char := ['h', 't', 't', 'p', 's', ':', '/', '/']
/-- `"http://"` as characters. -/
def httpL : List Char := ['h', 't', 't', 'p', ':', '/', '/']

/-- The URL pattern `/^(https?:\/\/)[a-zA-Z0-9-._~:/?#[\]@!$&'()*+,;=]+$/`. -/
def urlTest (cs : List Char) : Bool :=
  (httpsL.isPrefixOf cs && (let r := cs.drop 8; !r.isEmpty && r.all urlChar)) ||
  (httpL.isPrefixOf cs && (let r := cs.drop 7; !r.isEmpty && r.all urlChar))

/-- The PMCID pattern `/^PMC\d+$/`. -/
def pmcidTest (cs : List Char) : Bool :=
  (['P', 'M', 'C'].isPrefixOf cs) && (let r := cs.drop 3; !r.isEmpty && r.all Char.isDigit)

/-- The PMID pattern `/^\d{7,10}$/`. -/
def pmidTest (cs : List Char) : Bool :=
  decide (7 ≤ cs.length) && decide (cs.length ≤ 10) && cs.all Char.isDigit

/-- The ISBN pattern `/^(97[89])\d{9}(\d|X)$/`. -/
def isbnTest (cs : List Char) : Bool :=
  (cs.length == 13) &&
  ((['9', '7', '8'].isPrefixOf cs) || (['9', '7', '9'].isPrefixOf cs)) &&
  ((cs.drop 3).take 9).all Char.isDigit &&
  (match cs.drop 12 with
   | [c] => c.isDigit || c == 'X'
   | _ => false)

/-- The global hyphen removal `trimmed.replace` with pattern `-` and
replacement `""` — the hyphen-stripped copy used only for pattern
matching. -/
def hyClean (cs : List Char) : List Char := cs.filter (· != '-')

/-- The pattern-matching stage of `recognizeIdentifierType`
(src/index.ts lines 225-242): the patterns are tested in the fixed
object-literal insertion order DOI, URL, PMCID, PMID, ISBN (the
`undefined` pattern `/.^/` never matches); on a match the original
trimmed (not hyphen-stripped) value is returned. -/
def patternClassify (t : List Char) : IdentifierType × List Char :=
  let c := hyClean t
  if doiTest c then (.DOI, t)
  else if urlTest c then (.URL, t)
  else if pmcidTest c then (.PMCID, t)
  else if pmidTest c then (.PMID, t)
  else if isbnTest c then (.ISBN, t)
  else (.undef, t)

/-- The body of `recognizeIdentifierType` after trimming: the explicit
prefixes are tested in object-literal order `url:`, `doi:`, `pmcid:`,
`pmid:`, `isbn:`; a match forces the type and returns the trimmed
remainder with no pattern validation. -/
def recognizeTrimmed (t : List Char) : IdentifierType × List Char :=
  if urlPreL.isPrefixOf t then (.URL, jsTrim (t.drop 4))
  else if doiPreL.isPrefixOf t then (.DOI, jsTrim (t.drop 4))
  else if pmcidPreL.isPrefixOf t then (.PMCID, jsTrim (t.drop 6))
  else if pmidPreL.isPrefixOf t then (.PMID, jsTrim (t.drop 5))
  else if isbnPreL.isPrefixOf t then (.ISBN, jsTrim (t.drop 5))
  else patternClassify t

/-- `recognizeIdentifierType` (src/index.ts lines 217-239). -/
def recognizeIdentifierType (input : List Char) : IdentifierType × List Char :=
  recognizeTrimmed (jsTrim input)

/-! ## Canonical citation records (src/types.ts) -/

/-- The CSL-JSON record shape of src/types.ts (hyphenated keys are
camel-cased: `container-title` is `containerTitle`, `number-of-pages`
is `numberOfPages`, `publisher-place` is `publisherPlace`; the keyword
`type` is `type_`).  A field whose key is absent from the constructed
JS object literal is `none`. -/
structure CSLJson where
  id : String
  DOI : Option String := none
  URL : Option String := none
  ISSN : Option (List String) := none
  ISBN : Option String := none
  PMID : Option String := none
  PMCID : Option String := none
  containerTitle : Option String := none
  issue : Option String := none
  issued : Option DateObject := none
  page : Option String := none
  numberOfPages : Option Int := none
  publisher : Option String := none
  publisherPlace : Option String := none
  source : Option String := none
  title : Option String := none
  volume : Option String := none
  type_ : Option String := none
  accessed : Option DateObject := none
  author : Option (List Author) := none
deriving DecidableEq, Repr

/-- `FailedCSLJson` (src/types.ts): the failure marker
`{ id, identifier, type, status: "failed" }`. -/
structure FailedCSLJson where
  id : String
  identifier : String
  type_ : String
  status : String
deriving DecidableEq, Repr

/-- `CSLJsonResponse`: a successful record or a failure marker. -/
inductive CSLJsonResponse where
  | success : CSLJson → CSLJsonResponse
  | failed : FailedCSLJson → CSLJsonResponse
deriving DecidableEq, Repr

/-- The JS exceptions that can escape an adapter `try` block. -/
inductive JsError where
  | fetchFailed   -- `await fetch(...)` rejected
  | jsonError     -- `response.json()` / `response.text()` rejected
  | notFound      -- explicit `throw new Error(...)` on a bad status
  | typeError     -- property access or method call on `undefined`
deriving DecidableEq, Repr

/-! ## `CSLJsonParser.fromDOI` (src/CSLJsonParser.ts lines 156-194) -/

/-- The shape of `data.message` from the CrossRef works endpoint:
`title` and `container-title` are length-1 arrays upstream. -/
structure CrossRefMsg where
  DOI : Option String := none
  URL : Option String := none
  ISSN : Option (List String) := none
  containerTitle : Option (List String) := none
  issue : Option String := none
  issued : Option DateObject := none
  page : Option String := none
  publisher : Option String := none
  publisherPlace : Option String := none
  source : Option String := none
  title : Option (List String) := none
  volume : Option String := none
  type_ : Option String := none
  author : Option (List Author) := none
deriving DecidableEq, Repr

/-- A parsed CrossRef response body `{ message?: ... }`. -/
structure CrossRefData where
  message : Option CrossRefMsg := none
deriving DecidableEq, Repr

/-- An HTTP response for the DOI endpoint: a status and a body that
either parses (`some`) or makes `response.json()` reject (`none`). -/
structure DOIResp where
  status : Int
  data : Option CrossRefData
deriving DecidableEq, Repr

/-- The external world seen by one `fromDOI` call: the id produced by
`uid()`, the current time `new Date()`, and the `fetch` outcome
(`none` means the network request rejected). -/
structure DOIWorld where
  uid : String
  now : JsDate
  fetch : Option DOIResp
deriving DecidableEq, Repr

/-- The failure marker built in `fromDOI`'s catch block (line 192). -/
def doiFailure (u d : String) : FailedCSLJson := ⟨u, d, "DOI", "failed"⟩

/-- The `try` block of `fromDOI`: every JS throw point is an
`Except.error`.  Throw points: the `fetch` rejecting, the explicit
404 throw (lines 160-164), `response.json()` rejecting, property
access on an `undefined` `message`, and indexing `[0]` on an absent
`container-title` or `title` array. -/
def fromDOIBody (w : DOIWorld) (st : List CSLJson) :
    Except JsError (CSLJsonResponse × List CSLJson) :=
  match w.fetch with
  | none => .error .fetchFailed
  | some resp =>
    if resp.status == 404 then .error .notFound
    else match resp.data with
      | none => .error .jsonError
      | some data =>
        match data.message with
        | none => .error .typeError
        | some m =>
          match m.containerTitle, m.title with
          | some ct, some ti =>
            let obj : CSLJson :=
              { id := w.uid
                DOI := m.DOI
                -- `message.URL || (message.DOI ? doi-org link : undefined)`
                URL := match jsTruthyStr m.URL with
                       | some u => some u
                       | none => (jsTruthyStr m.DOI).map (fun d => ("https://doi.org/") ++ d)
                ISSN := m.ISSN
                containerTitle := ct.head?
                issue := m.issue
                issued := m.issued
                page := m.page
                publisher := m.publisher
                publisherPlace := m.publisherPlace
                source := m.source
                title := ti.head?
                volume := m.volume
                type_ := m.type_
                accessed := some (createDateObject w.now)
                author := m.author }
            .ok (.success obj, st ++ [obj])
          | _, _ => .error .typeError

/-- `fromDOI`: the `try`/`catch` wrapper — any error becomes the DOI
failure marker and leaves the record store untouched. -/
def fromDOI (doi : String) (w : DOIWorld) (st : List CSLJson) :
    CSLJsonResponse × List CSLJson :=
  match fromDOIBody w st with
  | .ok result => result
  | .error _ => (.failed (doiFailure w.uid doi), st)

/-! ## `fromPMID` / `fromPMCID` (src/CSLJsonParser.ts lines 352-453) -/

/-- A parsed CSL-shaped body from the NCBI literature-citation
endpoint (the fields the adapter reads). -/
structure PubmedData where
  status : Option String := none
  DOI : Option String := none
  URL : Option String := none
  ISSN : Option (List String) := none
  containerTitle : Option String := none
  issue : Option String := none
  issued : Option DateObject := none
  page : Option String := none
  publisherPlace : Option String := none
  source : Option String := none
  title : Option String := none
  type_ : Option String := none
  volume : Option String := none
  author : Option (List Author) := none
deriving DecidableEq, Repr

/-- The world of one `fromPMID`/`fromPMCID` call: `uid()`, `new
Date()`, the fetch outcome (`none` = rejected; `some none` = body did
not parse) and the world of the nested `fromDOI` call taken when the
response carries a DOI. -/
structure PMWorld where
  uid : String
  now : JsDate
  fetch : Option (Option PubmedData)
  doiW : DOIWorld
deriving DecidableEq, Repr

/-- The object literal built in the non-redirect branch of `fromPMID`
and `fromPMCID` (lines 374-389 and 427-442): note that the source
literal has no `DOI`, `PMID`, `PMCID` or `publisher` key. -/
def pubmedRecord (u : String) (now : JsDate) (data : PubmedData) : CSLJson :=
  { id := u
    URL := data.URL
    ISSN := data.ISSN
    containerTitle := data.containerTitle
    issue := data.issue
    issued := data.issued
    page := data.page
    publisherPlace := data.publisherPlace
    source := data.source
    title := data.title
    type_ := data.type_
    volume := data.volume
    accessed := some (createDateObject now)
    author := data.author }

/-- The `try` block of `fromPMID` (lines 409-448): throw on a rejected
fetch, an unparsable body, or a `status: "error"` body; if `data?.DOI`
is truthy, delegate entirely to `fromDOI`; otherwise build and append
the PMID-shaped record. -/
def fromPMIDBody (w : PMWorld) (st : List CSLJson) :
    Except JsError (CSLJsonResponse × List CSLJson) :=
  match w.fetch with
  | none => .error .fetchFailed
  | some none => .error .jsonError
  | some (some data) =>
    if data.status == some ("error") then .error .notFound
    else match jsTruthyStr data.DOI with
      | some d => .ok (fromDOI d w.doiW st)
      | none =>
        let obj := pubmedRecord w.uid w.now data
        .ok (.success obj, st ++ [obj])

/-- `fromPMID` (lines 407-453). -/
def fromPMID (pmid : String) (w : PMWorld) (st : List CSLJson) :
    CSLJsonResponse × List CSLJson :=
  match fromPMIDBody w st with
  | .ok result => result
  | .error _ => (.failed ⟨w.uid, pmid, "PMID", "failed"⟩, st)

/-- `pmcid.replace` with pattern `^PMC` (line 354): strips one leading
`PMC`.  The stripped value is used only inside the fetch URL, which
the world abstracts; the catch block uses the original `pmcid`. -/
def pmcIdWithoutPre (pmcid : String) : String :=
  if (['P', 'M', 'C']).isPrefixOf pmcid.data then (pmcid.data.drop 3).asString else pmcid

/-- The `try` block of `fromPMCID` (lines 356-395); identical logic to
`fromPMID` over its own world. -/
def fromPMCIDBody (w : PMWorld) (st : List CSLJson) :
    Except JsError (CSLJsonResponse × List CSLJson) :=
  match w.fetch with
  | none => .error .fetchFailed
  | some none => .error .jsonError
  | some (some data) =>
    if data.status == some ("error") then .error .notFound
    else match jsTruthyStr data.DOI with
      | some d => .ok (fromDOI d w.doiW st)
      | none =>
        let obj := pubmedRecord w.uid w.now data
        .ok (.success obj, st ++ [obj])

/-- `fromPMCID` (lines 352-400). -/
def fromPMCID (pmcid : String) (w : PMWorld) (st : List CSLJson) :
    CSLJsonResponse × List CSLJson :=
  match fromPMCIDBody w st with
  | .ok result => result
  | .error _ => (.failed ⟨w.uid, pmcid, "PMCID", "failed"⟩, st)

/-! ## `CSLJsonParser.fromURL` (src/CSLJsonParser.ts lines 201-300) -/

/-- The metadata that jsdom's `extractContent`/`extractAuthors` pulls
out of the fetched page.  `extractContent` always returns a string
(defaulting to `""`), and each author meta contributes
`getAttribute("content") || ""`, so the page is modelled as the total
extraction results. -/
structure PageData where
  keywords : String := ""     -- content of the keywords meta
  metaDoi : String := ""      -- publication_doi / citation_doi meta content
  ncbiUid : String := ""      -- ncbi_uid meta content
  pageTitle : String := ""    -- text of the title element
  authorMetas : List String := []  -- author / article:author meta contents
  ogSiteName : String := ""   -- og:site_name meta content
  articlePub : String := ""   -- article:publisher meta content
  metaDate : String := ""     -- date meta content
  ogUrl : String := ""        -- og:url meta content
deriving DecidableEq, Repr

/-- An HTTP response for the URL fetch: status, and `none` when
`response.text()` rejects. -/
structure URLResp where
  status : Int
  page : Option PageData
deriving DecidableEq, Repr

/-- The world of one `fromURL` call, including the worlds of the up to
one delegated `fromDOI` / `fromPMID` / `fromPMCID` call.  `dateParse`
is the (engine-defined) JS `new Date(string)` parser. -/
structure URLWorld where
  uid : String
  now : JsDate
  dateParse : String → JsDate
  fetch : Option URLResp
  doiW : DOIWorld
  pmidW : PMWorld
  pmcidW : PMWorld

/-- The scheme check `^https?:` followed by two slashes with the `i`
flag (line 205): the first 7 or 8 characters, lowercased, spell out
`http://` or `https://`. -/
def hasHttpScheme (s : String) : Bool :=
  ((s.data.take 7).map Char.toLower) == httpL || ((s.data.take 8).map Char.toLower) == httpsL

/-- Lines 205-207: prepend `https://` when the url lacks a scheme.
The reassigned variable is also what the catch block reports as the
failure marker's `identifier`. -/
def normalizeUrl (s : String) : String :=
  if hasHttpScheme s then s else ("https://") ++ s

/-- `keywords.match` with pattern `pmid:` followed by one or more
digits: leftmost match, maximal digit run. -/
def findPmidMatch : List Char → Option (List Char)
  | [] => none
  | c :: rest =>
    if pmidPreL.isPrefixOf (c :: rest) then
      match (c :: rest).drop 5 with
      | d :: ds =>
        if d.isDigit then some (pmidPreL ++ (d :: ds).takeWhile Char.isDigit)
        else findPmidMatch rest
      | [] => findPmidMatch rest
    else findPmidMatch rest

/-- `keywords.match` with pattern `PMC` followed by one or more
digits: leftmost match, maximal digit run. -/
def findPmcMatch : List Char → Option (List Char)
  | [] => none
  | c :: rest =>
    if (['P', 'M', 'C']).isPrefixOf (c :: rest) then
      match (c :: rest).drop 3 with
      | d :: ds =>
        if d.isDigit then some (['P', 'M', 'C'] ++ (d :: ds).takeWhile Char.isDigit)
        else findPmcMatch rest
      | [] => findPmcMatch rest
    else findPmcMatch rest

/-- `keywords.match` with pattern `doi:` followed by one or more
non-comma characters: leftmost match, maximal run. -/
def findDoiMatch : List Char → Option (List Char)
  | [] => none
  | c :: rest =>
    if doiPreL.isPrefixOf (c :: rest) then
      match (c :: rest).drop 4 with
      | d :: ds =>
        if d != ',' then some (doiPreL ++ (d :: ds).takeWhile (· != ','))
        else findDoiMatch rest
      | [] => findDoiMatch rest
    else findDoiMatch rest

/-- The result of `getAvailableIdentifiers` (lines 236-260). -/
structure AvailIds where
  doi : Option String
  pmid : Option String
  pmcid : Option String
deriving DecidableEq, Repr

/-- `"https://pubmed.ncbi.nlm.nih.gov"` as characters. -/
def pubmedHostL : List Char := ("https://pubmed.ncbi.nlm.nih.gov").data

/-- `getAvailableIdentifiers` (lines 236-260): keyword-based matches
are attempted only for PubMed-hosted urls; meta-tag contents (already
strings, `""` when absent) win over keyword matches via `||`; the
keyword-derived doi/pmid strings drop their `doi:`/`pmid:` heads via
`.replace` (the match starts with that head, so the leftmost
occurrence is the head itself). -/
def getAvailableIdentifiers (u : String) (page : PageData) : AvailIds :=
  let gate := pubmedHostL.isPrefixOf u.data
  let pmidMatch := if gate then findPmidMatch page.keywords.data else none
  let pmcidMatch := if gate then findPmcMatch page.keywords.data else none
  let doiMatch := if gate then findDoiMatch page.keywords.data else none
  let doi := match jsTruthyStr (some page.metaDoi) with
    | some s => some s
    | none => doiMatch.map (fun m => (m.drop 4).asString)
  let pmid := match jsTruthyStr (some page.ncbiUid) with
    | some s => some s
    | none => pmidMatch.map (fun m => (m.drop 5).asString)
  let pmcid := pmcidMatch.map List.asString
  ⟨doi, pmid, pmcid⟩

/-- The generic webpage record of `fromURL` (lines 281-291), the
fallback when no identifier was found on the page. -/
def webpageRecord (u' : String) (w : URLWorld) (page : PageData) : CSLJson :=
  { id := w.uid
    type_ := some ("webpage")
    title := some page.pageTitle
    author := some (createAuthorsArray page.authorMetas)
    containerTitle := some page.ogSiteName
    publisher := some page.articlePub
    accessed := some (createDateObject w.now)
    issued := some (createDateObject (w.dateParse page.metaDate))
    URL := some (jsOrStr (some page.ogUrl) u') }

/-- The `try` block of `fromURL` (lines 204-295): normalize the
scheme, throw on a rejected fetch / 403 status / rejected
`response.text()`, then try DOI, PMID, PMCID redirection in that
priority order, and fall back to the generic webpage record. -/
def fromURLBody (url : String) (w : URLWorld) (st : List CSLJson) :
    Except JsError (CSLJsonResponse × List CSLJson) :=
  let u' := normalizeUrl url
  match w.fetch with
  | none => .error .fetchFailed
  | some resp =>
    if resp.status == 403 then .error .notFound
    else match resp.page with
      | none => .error .jsonError
      | some page =>
        let ids := getAvailableIdentifiers u' page
        match ids.doi with
        | some d => .ok (fromDOI d w.doiW st)
        | none =>
          match ids.pmid with
          | some p => .ok (fromPMID p w.pmidW st)
          | none =>
            match ids.pmcid with
            | some p => .ok (fromPMCID p w.pmcidW st)
            | none =>
              let obj := webpageRecord u' w page
              .ok (.success obj, st ++ [obj])

/-- `fromURL` (lines 201-300): the catch block's marker carries the
reassigned `url` variable, i.e. the scheme-normalized value. -/
def fromURL (url : String) (w : URLWorld) (st : List CSLJson) :
    CSLJsonResponse × List CSLJson :=
  match fromURLBody url w st with
  | .ok result => result
  | .error _ => (.failed ⟨w.uid, normalizeUrl url, "URL", "failed"⟩, st)

/-! ## `CSLJsonParser.fromISBN` (src/CSLJsonParser.ts lines 307-345) -/

/-- A nested edition record of the Open Library search response. -/
structure OLEdition where
  publisher : Option (List String) := none
  publishPlace : Option (List String) := none
  publishDate : Option (List String) := none
  isbn : Option (List String) := none
deriving DecidableEq, Repr

/-- A document of the Open Library search response (`editions` stands
for the nested `editions.docs` array). -/
structure OLDoc where
  title : Option String := none
  numberOfPagesMedian : Option Int := none
  authorName : Option (List String) := none
  editions : Option (List OLEdition) := none
deriving DecidableEq, Repr

/-- The Open Library search response body. -/
structure OpenLibResp where
  numFound : Int
  docs : List OLDoc
deriving DecidableEq, Repr

/-- The world of one `fromISBN` call (`fetch`: `none` = rejected,
`some none` = body did not parse as JSON). -/
structure ISBNWorld where
  uid : String
  now : JsDate
  dateParse : String → JsDate
  fetch : Option (Option OpenLibResp)

/-- The `try` block of `fromISBN` (lines 308-340): throw on a rejected
fetch, an unparsable body, or `numFound === 0`; `publishDate` is a
`Date` object exactly when the first edition has a truthy (non-empty)
first `publish_date` string — even when that date string does not
parse; mapping over an absent `author_name` throws. -/
def fromISBNBody (isbn : String) (w : ISBNWorld) (st : List CSLJson) :
    Except JsError (CSLJsonResponse × List CSLJson) :=
  match w.fetch with
  | none => .error .fetchFailed
  | some none => .error .jsonError
  | some (some data) =>
    if data.numFound == 0 then .error .notFound
    else
      let docs0 := data.docs.head?
      let edition := (docs0.bind (·.editions)).bind List.head?
      let publishDate :=
        match jsTruthyStr ((edition.bind (·.publishDate)).bind List.head?) with
        | some s => some (w.dateParse s)
        | none => none
      match docs0.bind (·.authorName) with
      | none => .error .typeError
      | some names =>
        let obj : CSLJson :=
          { id := w.uid
            type_ := some ("book")
            title := docs0.bind (·.title)
            numberOfPages := docs0.bind (·.numberOfPagesMedian)
            author := some (createAuthorsArray names)
            publisher := (edition.bind (·.publisher)).bind List.head?
            publisherPlace := (edition.bind (·.publishPlace)).bind List.head?
            ISBN := some (jsOrStr ((edition.bind (·.isbn)).bind List.head?) isbn)
            issued := publishDate.map createDateObject
            accessed := some (createDateObject w.now) }
        .ok (.success obj, st ++ [obj])

/-- `fromISBN` (lines 307-345). -/
def fromISBN (isbn : String) (w : ISBNWorld) (st : List CSLJson) :
    CSLJsonResponse × List CSLJson :=
  match fromISBNBody isbn w st with
  | .ok result => result
  | .error _ => (.failed ⟨w.uid, isbn, "ISBN", "failed"⟩, st)

/-! ## Renderer adapter (`toBibliography`, src/CSLJsonParser.ts lines 460-494) -/

/-- The world of one `toBibliography` call: the raw text served for
each requested style file and locale file, and the citeproc engine's
bibliography entries (`makeBibliography()[1]`), with `none` when the
engine itself throws for a reason other than locale retrieval. -/
structure RenderWorld where
  styleBody : String → String
  localeBody : String → String
  engineRefs : Option (List String)

/-- The `text.startsWith` check of lines 79 and 101, on characters. -/
def is404 (text : String) : Bool := ("404:").data.isPrefixOf text.data

/-- `getCslFile` (lines 73-84): fetch the raw style file by name; a
body beginning with `404:` means the style does not exist and throws. -/
def getCslFile (w : RenderWorld) (style : String) : Except JsError String :=
  let text := w.styleBody style
  if is404 text then .error .notFound else .ok text

/-- `getLocaleFile` (lines 91-106): the same contract for the locale. -/
def getLocaleFile (w : RenderWorld) (locale : String) : Except JsError String :=
  let text := w.localeBody locale
  if is404 text then .error .notFound else .ok text

/-- The citeproc engine run (external, consumed as a black box) on
`updateItems(itemIDs)` + `makeBibliography()`: the engine invokes the
`retrieveLocale` callback — so a missing locale surfaces as
`getLocaleFile`'s throw escaping the engine — and otherwise produces
its entry list or its own error. -/
def runCiteproc (w : RenderWorld) (locale : String) (itemIDs : List String) :
    Except JsError (List String) :=
  match getLocaleFile w locale with
  | .error e => .error e
  | .ok _ =>
    let _ := itemIDs
    match w.engineRefs with
    | none => .error .typeError
    | some refs => .ok refs

/-- `format.toLowerCase()` (ASCII, which covers the format values). -/
def jsToLower (s : String) : String := (s.data.map Char.toLower).asString

/-- `Array.prototype.join` with a separator. -/
def joinList (sep : String) : List String → String
  | [] => ""
  | [x] => x
  | x :: y :: xs => x ++ sep ++ joinList sep (y :: xs)

/-- Line 485: `references[1].join(...)` — entries are joined with
`"\n"` for rtf output (after `format.toLowerCase()`) and with `""`
otherwise. -/
def joinRefs (format : String) (refs : List String) : String :=
  joinList (if jsToLower format == "rtf" then "\n" else "") refs

/-- `toBibliography` (lines 460-494): build the item table, fetch the
style, run the engine, join the entries; the surrounding `try`/`catch`
resolves the promise with the joined string, or with `null` (`none`)
on any thrown error — the promise never rejects, and the result is a
single string, never a pair. -/
def toBibliography (cslJson : List CSLJson) (style locale format : String)
    (w : RenderWorld) : Option String :=
  let itemIDs := cslJson.map (·.id)
  match getCslFile w style with
  | .error _ => none
  | .ok _ =>
    match runCiteproc w locale itemIDs with
    | .error _ => none
    | .ok refs => some (joinRefs format refs)

/-! ## `formatBibliography` (src/index.ts lines 288-307) -/

/-- Terminal escape prelude shared by the FONT constants
(src/common.ts). -/
def ESC : String := "\x1b"

/-- `FONT.BOLD`. -/
def FONT_BOLD : String := ESC ++ "[1m"
/-- `FONT.GREEN`. -/
def FONT_GREEN : String := ESC ++ "[38;5;48m"
/-- `FONT.GRAY`. -/
def FONT_GRAY : String := ESC ++ "[38;5;249m"
/-- `FONT.BLACK`. -/
def FONT_BLACK : String := ESC ++ "[38;5;0m"
/-- `FONT.BG_GREEN`. -/
def FONT_BG_GREEN : String := ESC ++ "[48;5;48m"
/-- `FONT.RESET`. -/
def FONT_RESET : String := ESC ++ "[0m"

/-- `RESULT.SUCCESS` (src/common.ts). -/
def RESULT_SUCCESS : String :=
  FONT_BG_GREEN ++ FONT_BOLD ++ FONT_BLACK ++ " SUCCESS " ++ FONT_RESET

/-- JS array destructuring `const [a, b] = s` applied to a *string*:
strings iterate over their characters, so `a` and `b` are the first
two characters as one-character strings (or `undefined` past the
end). -/
def jsStrDestr2 (s : String) : Option String × Option String :=
  match s.data with
  | [] => (none, none)
  | a :: rest =>
    (some (String.mk [a]),
     match rest with
     | [] => none
     | b :: _ => some (String.mk [b]))

/-- Template interpolation of a possibly-`undefined` value. -/
def jsShow : Option String → String
  | some s => s
  | none => "undefined"

/-- Line 301 of src/index.ts:
`const [references, intext] = await parser.toBibliography(...)`.
`toBibliography` resolves a `string | null`; destructuring `null`
throws a TypeError, destructuring a string yields its first two
characters. -/
def fbDestructured (content : List CSLJson) (style locale format : String)
    (w : RenderWorld) : Except JsError (Option String × Option String) :=
  match toBibliography content style locale format w with
  | none => .error .typeError
  | some s => .ok (jsStrDestr2 s)

/-- `formatBibliography` (src/index.ts lines 288-307): builds the
user-facing output from the destructured pair; returns `none` (JS
`null`) when `references` is falsy.  Note the function can only ever
show one-character `references`/`intext` fragments, since the pair
comes from destructuring a single string. -/
def formatBibliography (content : List CSLJson) (style locale format : String)
    (showIntext : Bool) (w : RenderWorld) : Except JsError (Option String) :=
  match fbDestructured content style locale format w with
  | .error e => .error e
  | .ok (references, intext) =>
    .ok (match references with
      | none => none
      | some r =>
        some (RESULT_SUCCESS ++ " " ++ FONT_GREEN ++ "Successfully generated references:" ++
          FONT_RESET ++ "\n" ++
          (if showIntext then
            "\r" ++ FONT_GRAY ++ "Reference list entries:" ++ FONT_RESET ++ "\n" ++ r ++
            "\n\r" ++ FONT_GRAY ++ "In-text citation:" ++ FONT_RESET ++ "\n" ++
            jsShow intext ++ "\n"
          else r) ++ "\n"))

/-! ## `updateConfig` (src/index.ts lines 73-90) -/

/-- The persisted configuration object, as an association list with JS
object-assignment semantics: an existing key is updated in place, a
new key is appended. -/
def setKey : List (String × String) → String → String → List (String × String)
  | [], k, v => [(k, v)]
  | (k', v') :: rest, k, v =>
    if k' == k then (k', v) :: rest else (k', v') :: setKey rest k v

/-- The format validation regex `^(text|html|rtf|asciidoc)$`. -/
def formatValid (v : String) : Bool :=
  v == "text" || v == "html" || v == "rtf" || v == "asciidoc"

/-- The outcome of one `updateConfig` call: the process exit code and
the persisted contents of the configuration file. -/
structure ConfigOutcome where
  exitCode : Nat
  file : List (String × String)
deriving DecidableEq, Repr

/-- `updateConfig` (src/index.ts lines 73-90): an invalid `format`
value exits with code 1 before any write; otherwise the key is
assigned and `writeFileSync` is attempted — when the write throws, the
catch block only logs and the function still exits with code 0,
leaving the persisted file unchanged. `writeOk` is the filesystem's
verdict on the write. -/
def updateConfig (config : List (String × String)) (key value : String)
    (writeOk : Bool) : ConfigOutcome :=
  if key == "format" && !formatValid value then ⟨1, config⟩
  else if writeOk then ⟨0, setKey config key value⟩
  else ⟨0, config⟩

/-! ## Helper lemmas -/

theorem isPrefixOf_append_self (p rest : List Char) : p.isPrefixOf (p ++ rest) = true :=
  List.isPrefixOf_iff_prefix.mpr (List.prefix_append p rest)

theorem hyClean_head_of_pre {c : Char} {p t : List Char}
    (hp : (c :: p).isPrefixOf t = true) (hc : (c != '-') = true) :
    ∃ r, hyClean t = c :: r := by
  obtain ⟨s, hs⟩ := List.isPrefixOf_iff_prefix.mp hp
  subst hs
  refine ⟨(p ++ s).filter (· != '-'), ?_⟩
  simp [hyClean, List.filter_cons, hc]

theorem urlTest_head {c : List Char} (h : urlTest c = true) : ∃ r, c = 'h' :: r := by
  unfold urlTest at h
  rcases Bool.or_eq_true_iff.mp h with h' | h' <;>
  · obtain ⟨hpre, _⟩ := Bool.and_eq_true_iff.mp h'
    obtain ⟨s, hs⟩ := List.isPrefixOf_iff_prefix.mp hpre
    exact ⟨_, by rw [← hs]; rfl⟩

/-! ## Claims about the classifier -/

/-- C3: for every input whose trimmed, hyphen-stripped form matches
both the DOI pattern and the URL pattern, classification returns DOI,
never URL — the DOI pattern is tested before the URL pattern, and no
explicit-prefix branch can fire because a URL-pattern match forces the
first non-hyphen character to be `h`. -/
theorem doi_beats_url (input : List Char)
    (hd : doiTest (hyClean (jsTrim input)) = true)
    (hu : urlTest (hyClean (jsTrim input)) = true) :
    (recognizeIdentifierType input).1 = IdentifierType.DOI := by
  obtain ⟨r, hr⟩ := urlTest_head hu
  have head_ne : ∀ (c : Char) (p : List Char), (c != '-') = true → c ≠ 'h' →
      (c :: p).isPrefixOf (jsTrim input) = false := by
    intro c p hc hch
    cases hpre : (c :: p).isPrefixOf (jsTrim input) with
    | false => rfl
    | true =>
      obtain ⟨r', hr'⟩ := hyClean_head_of_pre hpre hc
      rw [hr'] at hr
      exact absurd (List.head_eq_of_cons_eq hr) hch
  have h1 : urlPreL.isPrefixOf (jsTrim input) = false :=
    head_ne 'u' _ (by decide) (by decide)
  have h2 : doiPreL.isPrefixOf (jsTrim input) = false :=
    head_ne 'd' _ (by decide) (by decide)
  have h3 : pmcidPreL.isPrefixOf (jsTrim input) = false :=
    head_ne 'p' _ (by decide) (by decide)
  have h4 : pmidPreL.isPrefixOf (jsTrim input) = false :=
    head_ne 'p' _ (by decide) (by decide)
  have h5 : isbnPreL.isPrefixOf (jsTrim input) = false :=
    head_ne 'i' _ (by decide) (by decide)
  unfold recognizeIdentifierType recognizeTrimmed
  simp only [h1, h2, h3, h4, h5, Bool.false_eq_true, if_false, patternClassify]
  simp [hd]

/-- Witness for `doi_beats_url`: a DOI written as a resolver URL
matches both patterns and is classified DOI. -/
theorem doi_beats_url_witness :
    doiTest (hyClean (jsTrim (("https://doi.org/10.1234/abc").data))) = true ∧
    urlTest (hyClean (jsTrim (("https://doi.org/10.1234/abc").data))) = true ∧
    (recognizeIdentifierType (("https://doi.org/10.1234/abc").data)).1 = IdentifierType.DOI :=
  ⟨by decide, by decide, doi_beats_url _ (by decide) (by decide)⟩

/-- C4: an explicit type prefix on the trimmed input forces that type;
the value is the remainder after the prefix, trimmed again, and no
pattern validation is applied to it (the conclusion holds for every
remainder whatsoever). -/
theorem explicit_prefixes_force_type (input : List Char) :
    (∀ rest, jsTrim input = urlPreL ++ rest →
      recognizeIdentifierType input = (.URL, jsTrim rest)) ∧
    (∀ rest, jsTrim input = doiPreL ++ rest →
      recognizeIdentifierType input = (.DOI, jsTrim rest)) ∧
    (∀ rest, jsTrim input = pmcidPreL ++ rest →
      recognizeIdentifierType input = (.PMCID, jsTrim rest)) ∧
    (∀ rest, jsTrim input = pmidPreL ++ rest →
      recognizeIdentifierType input = (.PMID, jsTrim rest)) ∧
    (∀ rest, jsTrim input = isbnPreL ++ rest →
      recognizeIdentifierType input = (.ISBN, jsTrim rest)) := by
  refine ⟨?_, ?_, ?_, ?_, ?_⟩ <;> intro rest h <;>
    rw [recognizeIdentifierType, h, recognizeTrimmed]
  · rw [isPrefixOf_append_self,
      show List.drop 4 (urlPreL ++ rest) = rest from rfl]
    simp
  · rw [show urlPreL.isPrefixOf (doiPreL ++ rest) = false from rfl,
      isPrefixOf_append_self,
      show List.drop 4 (doiPreL ++ rest) = rest from rfl]
    simp
  · rw [show urlPreL.isPrefixOf (pmcidPreL ++ rest) = false from rfl,
      show doiPreL.isPrefixOf (pmcidPreL ++ rest) = false from rfl,
      isPrefixOf_append_self,
      show List.drop 6 (pmcidPreL ++ rest) = rest from rfl]
    simp
  · rw [show urlPreL.isPrefixOf (pmidPreL ++ rest) = false from rfl,
      show doiPreL.isPrefixOf (pmidPreL ++ rest) = false from rfl,
      show pmcidPreL.isPrefixOf (pmidPreL ++ rest) = false from rfl,
      isPrefixOf_append_self,
      show List.drop 5 (pmidPreL ++ rest) = rest from rfl]
    simp
  · rw [show urlPreL.isPrefixOf (isbnPreL ++ rest) = false from rfl,
      show doiPreL.isPrefixOf (isbnPreL ++ rest) = false from rfl,
      show pmcidPreL.isPrefixOf (isbnPreL ++ rest) = false from rfl,
      show pmidPreL.isPrefixOf (isbnPreL ++ rest) = false from rfl,
      isPrefixOf_append_self,
      show List.drop 5 (isbnPreL ++ rest) = rest from rfl]
    simp

/-- Witness for `explicit_prefixes_force_type`: `doi: not-a-doi!`
classifies as DOI with value `not-a-doi!` although the remainder does
not match the DOI pattern at all. -/
theorem explicit_prefixes_force_type_witness :
    recognizeIdentifierType (("doi: not-a-doi!").data) = (.DOI, ("not-a-doi!").data) := by
  have h := (explicit_prefixes_force_type (("doi: not-a-doi!").data)).2.1
    ((" not-a-doi!").data) (by decide)
  rw [h]; decide

/-! ## Case-analysis lemmas for the adapters -/

theorem fromDOIBody_cases (w : DOIWorld) (st : List CSLJson) :
    (∃ r, fromDOIBody w st = .ok (.success r, st ++ [r])) ∨
    (∃ e, fromDOIBody w st = .error e) := by
  unfold fromDOIBody
  rcases w.fetch with _ | resp
  · exact .inr ⟨_, rfl⟩
  simp only
  split
  · exact .inr ⟨_, rfl⟩
  split
  · exact .inr ⟨_, rfl⟩
  split
  · exact .inr ⟨_, rfl⟩
  split
  · exact .inl ⟨_, rfl⟩
  · exact .inr ⟨_, rfl⟩

theorem fromDOI_cases (doi : String) (w : DOIWorld) (st : List CSLJson) :
    (∃ r, fromDOI doi w st = (.success r, st ++ [r])) ∨
    fromDOI doi w st = (.failed (doiFailure w.uid doi), st) := by
  rcases fromDOIBody_cases w st with ⟨r, h⟩ | ⟨e, h⟩ <;>
    unfold fromDOI <;> rw [h]
  · exact .inl ⟨r, rfl⟩
  · exact .inr rfl

theorem fromPMIDBody_cases (w : PMWorld) (st : List CSLJson) :
    (∃ r, fromPMIDBody w st = .ok (.success r, st ++ [r])) ∨
    (∃ e, fromPMIDBody w st = .error e) ∨
    (∃ d, fromPMIDBody w st = .ok (fromDOI d w.doiW st)) := by
  unfold fromPMIDBody
  rcases w.fetch with _ | (_ | data)
  · exact .inr (.inl ⟨_, rfl⟩)
  · exact .inr (.inl ⟨_, rfl⟩)
  simp only
  split
  · exact .inr (.inl ⟨_, rfl⟩)
  split
  · exact .inr (.inr ⟨_, rfl⟩)
  · exact .inl ⟨_, rfl⟩

theorem fromPMID_cases (pmid : String) (w : PMWorld) (st : List CSLJson) :
    (∃ r, fromPMID pmid w st = (.success r, st ++ [r])) ∨
    fromPMID pmid w st = (.failed ⟨w.uid, pmid, "PMID", "failed"⟩, st) ∨
    (∃ d, fromPMID pmid w st = fromDOI d w.doiW st) := by
  rcases fromPMIDBody_cases w st with ⟨r, h⟩ | ⟨e, h⟩ | ⟨d, h⟩ <;>
    unfold fromPMID <;> rw [h]
  · exact .inl ⟨r, rfl⟩
  · exact .inr (.inl rfl)
  · exact .inr (.inr ⟨d, rfl⟩)

theorem fromPMCIDBody_cases (w : PMWorld) (st : List CSLJson) :
    (∃ r, fromPMCIDBody w st = .ok (.success r, st ++ [r])) ∨
    (∃ e, fromPMCIDBody w st = .error e) ∨
    (∃ d, fromPMCIDBody w st = .ok (fromDOI d w.doiW st)) := by
  unfold fromPMCIDBody
  rcases w.fetch with _ | (_ | data)
  · exact .inr (.inl ⟨_, rfl⟩)
  · exact .inr (.inl ⟨_, rfl⟩)
  simp only
  split
  · exact .inr (.inl ⟨_, rfl⟩)
  split
  · exact .inr (.inr ⟨_, rfl⟩)
  · exact .inl ⟨_, rfl⟩

theorem fromPMCID_cases (pmcid : String) (w : PMWorld) (st : List CSLJson) :
    (∃ r, fromPMCID pmcid w st = (.success r, st ++ [r])) ∨
    fromPMCID pmcid w st = (.failed ⟨w.uid, pmcid, "PMCID", "failed"⟩, st) ∨
    (∃ d, fromPMCID pmcid w st = fromDOI d w.doiW st) := by
  rcases fromPMCIDBody_cases w st with ⟨r, h⟩ | ⟨e, h⟩ | ⟨d, h⟩ <;>
    unfold fromPMCID <;> rw [h]
  · exact .inl ⟨r, rfl⟩
  · exact .inr (.inl rfl)
  · exact .inr (.inr ⟨d, rfl⟩)

theorem fromISBNBody_cases (isbn : String) (w : ISBNWorld) (st : List CSLJson) :
    (∃ r, fromISBNBody isbn w st = .ok (.success r, st ++ [r])) ∨
    (∃ e, fromISBNBody isbn w st = .error e) := by
  unfold fromISBNBody
  rcases w.fetch with _ | (_ | data)
  · exact .inr ⟨_, rfl⟩
  · exact .inr ⟨_, rfl⟩
  simp only
  split
  · exact .inr ⟨_, rfl⟩
  split
  · exact .inr ⟨_, rfl⟩
  · exact .inl ⟨_, rfl⟩

theorem fromISBN_cases (isbn : String) (w : ISBNWorld) (st : List CSLJson) :
    (∃ r, fromISBN isbn w st = (.success r, st ++ [r])) ∨
    fromISBN isbn w st = (.failed ⟨w.uid, isbn, "ISBN", "failed"⟩, st) := by
  rcases fromISBNBody_cases isbn w st with ⟨r, h⟩ | ⟨e, h⟩ <;>
    unfold fromISBN <;> rw [h]
  · exact .inl ⟨r, rfl⟩
  · exact .inr rfl

theorem fromURLBody_cases (url : String) (w : URLWorld) (st : List CSLJson) :
    (∃ r, fromURLBody url w st = .ok (.success r, st ++ [r])) ∨
    (∃ e, fromURLBody url w st = .error e) ∨
    (∃ d, fromURLBody url w st = .ok (fromDOI d w.doiW st)) ∨
    (∃ p, fromURLBody url w st = .ok (fromPMID p w.pmidW st)) ∨
    (∃ p, fromURLBody url w st = .ok (fromPMCID p w.pmcidW st)) := by
  unfold fromURLBody
  rcases w.fetch with _ | resp
  · exact .inr (.inl ⟨_, rfl⟩)
  simp only
  split
  · exact .inr (.inl ⟨_, rfl⟩)
  rcases resp.page with _ | page
  · exact .inr (.inl ⟨_, rfl⟩)
  simp only
  split
  · exact .inr (.inr (.inl ⟨_, rfl⟩))
  split
  · exact .inr (.inr (.inr (.inl ⟨_, rfl⟩)))
  split
  · exact .inr (.inr (.inr (.inr ⟨_, rfl⟩)))
  · exact .inl ⟨_, rfl⟩

theorem fromURL_cases (url : String) (w : URLWorld) (st : List CSLJson) :
    (∃ r, fromURL url w st = (.success r, st ++ [r])) ∨
    fromURL url w st = (.failed ⟨w.uid, normalizeUrl url, "URL", "failed"⟩, st) ∨
    (∃ d, fromURL url w st = fromDOI d w.doiW st) ∨
    (∃ p, fromURL url w st = fromPMID p w.pmidW st) ∨
    (∃ p, fromURL url w st = fromPMCID p w.pmcidW st) := by
  rcases fromURLBody_cases url w st with ⟨r, h⟩ | ⟨e, h⟩ | ⟨d, h⟩ | ⟨p, h⟩ | ⟨p, h⟩ <;>
    unfold fromURL <;> rw [h]
  · exact .inl ⟨r, rfl⟩
  · exact .inr (.inl rfl)
  · exact .inr (.inr (.inl ⟨d, rfl⟩))
  · exact .inr (.inr (.inr (.inl ⟨p, rfl⟩)))
  · exact .inr (.inr (.inr (.inr ⟨p, rfl⟩)))

/-- What one adapter call may do to the record store: append exactly
the returned record on success, leave the store untouched on failure. -/
def StoreSpec (st : List CSLJson) (res : CSLJsonResponse × List CSLJson) : Prop :=
  (∀ r, res.1 = .success r → res.2 = st ++ [r]) ∧
  (∀ m, res.1 = .failed m → res.2 = st)

theorem storeSpec_succ (st : List CSLJson) (r : CSLJson) :
    StoreSpec st (CSLJsonResponse.success r, st ++ [r]) := by
  constructor
  · intro r' h
    cases h
    rfl
  · intro m h
    simp at h

theorem storeSpec_fail (st : List CSLJson) (m : FailedCSLJson) :
    StoreSpec st (CSLJsonResponse.failed m, st) := by
  constructor
  · intro r h
    simp at h
  · intro m' _
    rfl

theorem storeOk_fromDOI (doi : String) (w : DOIWorld) (st : List CSLJson) :
    StoreSpec st (fromDOI doi w st) := by
  rcases fromDOI_cases doi w st with ⟨r, h⟩ | h <;> rw [h]
  · exact storeSpec_succ st r
  · exact storeSpec_fail st _

theorem storeOk_fromPMID (pmid : String) (w : PMWorld) (st : List CSLJson) :
    StoreSpec st (fromPMID pmid w st) := by
  rcases fromPMID_cases pmid w st with ⟨r, h⟩ | h | ⟨d, h⟩ <;> rw [h]
  · exact storeSpec_succ st r
  · exact storeSpec_fail st _
  · exact storeOk_fromDOI d w.doiW st

theorem storeOk_fromPMCID (pmcid : String) (w : PMWorld) (st : List CSLJson) :
    StoreSpec st (fromPMCID pmcid w st) := by
  rcases fromPMCID_cases pmcid w st with ⟨r, h⟩ | h | ⟨d, h⟩ <;> rw [h]
  · exact storeSpec_succ st r
  · exact storeSpec_fail st _
  · exact storeOk_fromDOI d w.doiW st

theorem storeOk_fromISBN (isbn : String) (w : ISBNWorld) (st : List CSLJson) :
    StoreSpec st (fromISBN isbn w st) := by
  rcases fromISBN_cases isbn w st with ⟨r, h⟩ | h <;> rw [h]
  · exact storeSpec_succ st r
  · exact storeSpec_fail st _

theorem storeOk_fromURL (url : String) (w : URLWorld) (st : List CSLJson) :
    StoreSpec st (fromURL url w st) := by
  rcases fromURL_cases url w st with ⟨r, h⟩ | h | ⟨d, h⟩ | ⟨p, h⟩ | ⟨p, h⟩ <;> rw [h]
  · exact storeSpec_succ st r
  · exact storeSpec_fail st _
  · exact storeOk_fromDOI d w.doiW st
  · exact storeOk_fromPMID p w.pmidW st
  · exact storeOk_fromPMCID p w.pmcidW st

/-! ## Claim C9: the record store is append-only, one record per success -/

/-- C9: every single adapter call (including calls that redirect
internally through another adapter) either appends exactly the record
it returns to the end of the store (success), or leaves the store
completely unchanged (failure marker); existing records are never
removed or modified. -/
theorem adapters_append_exactly_returned_or_nothing :
    (∀ (doi : String) (w : DOIWorld) (st : List CSLJson), StoreSpec st (fromDOI doi w st)) ∧
    (∀ (pmid : String) (w : PMWorld) (st : List CSLJson), StoreSpec st (fromPMID pmid w st)) ∧
    (∀ (pmcid : String) (w : PMWorld) (st : List CSLJson), StoreSpec st (fromPMCID pmcid w st)) ∧
    (∀ (url : String) (w : URLWorld) (st : List CSLJson), StoreSpec st (fromURL url w st)) ∧
    (∀ (isbn : String) (w : ISBNWorld) (st : List CSLJson), StoreSpec st (fromISBN isbn w st)) :=
  ⟨storeOk_fromDOI, storeOk_fromPMID, storeOk_fromPMCID, storeOk_fromURL, storeOk_fromISBN⟩

/-- A failing DOI world: the network request itself rejects. -/
def wDOI0 : DOIWorld := ⟨"uD", .invalid, none⟩
/-- A failing PMID world. -/
def wPM0 : PMWorld := ⟨"uP", .invalid, none, wDOI0⟩
/-- A failing PMCID world. -/
def wPMC0 : PMWorld := ⟨"uC", .invalid, none, wDOI0⟩
/-- A failing URL world. -/
def wURL0 : URLWorld :=
  { uid := "uU", now := .invalid, dateParse := fun _ => .invalid,
    fetch := none, doiW := wDOI0, pmidW := wPM0, pmcidW := wPMC0 }

/-- A pre-existing store record. -/
def keepRec : CSLJson := { id := "keep" }

/-- Witness for `adapters_append_exactly_returned_or_nothing`: a
failing `fromDOI` call leaves a pre-populated store untouched. -/
theorem adapters_append_exactly_returned_or_nothing_witness :
    (fromDOI ("10.1000/xyz123") wDOI0 [keepRec]).2 = [keepRec] :=
  (adapters_append_exactly_returned_or_nothing.1 ("10.1000/xyz123") wDOI0 [keepRec]).2
    (doiFailure ("uD") ("10.1000/xyz123")) (by rfl)

/-! ## Claim C1: adapter failure contract -/

theorem marker_fromDOI {doi : String} {w : DOIWorld} {st : List CSLJson} {m : FailedCSLJson}
    (h : (fromDOI doi w st).1 = .failed m) : m = doiFailure w.uid doi := by
  rcases fromDOI_cases doi w st with ⟨r, hr⟩ | hr <;> rw [hr] at h
  · simp at h
  · exact (CSLJsonResponse.failed.injEq _ _ ▸ h).symm

theorem marker_fromISBN {isbn : String} {w : ISBNWorld} {st : List CSLJson} {m : FailedCSLJson}
    (h : (fromISBN isbn w st).1 = .failed m) : m = ⟨w.uid, isbn, "ISBN", "failed"⟩ := by
  rcases fromISBN_cases isbn w st with ⟨r, hr⟩ | hr <;> rw [hr] at h
  · simp at h
  · exact (CSLJsonResponse.failed.injEq _ _ ▸ h).symm

theorem marker_fromPMID {pmid : String} {w : PMWorld} {st : List CSLJson} {m : FailedCSLJson}
    (h : (fromPMID pmid w st).1 = .failed m) :
    m = ⟨w.uid, pmid, "PMID", "failed"⟩ ∨ ∃ d, m = doiFailure w.doiW.uid d := by
  rcases fromPMID_cases pmid w st with ⟨r, hr⟩ | hr | ⟨d, hr⟩ <;> rw [hr] at h
  · simp at h
  · exact .inl (CSLJsonResponse.failed.injEq _ _ ▸ h).symm
  · exact .inr ⟨d, marker_fromDOI h⟩

theorem marker_fromPMCID {pmcid : String} {w : PMWorld} {st : List CSLJson} {m : FailedCSLJson}
    (h : (fromPMCID pmcid w st).1 = .failed m) :
    m = ⟨w.uid, pmcid, "PMCID", "failed"⟩ ∨ ∃ d, m = doiFailure w.doiW.uid d := by
  rcases fromPMCID_cases pmcid w st with ⟨r, hr⟩ | hr | ⟨d, hr⟩ <;> rw [hr] at h
  · simp at h
  · exact .inl (CSLJsonResponse.failed.injEq _ _ ▸ h).symm
  · exact .inr ⟨d, marker_fromDOI h⟩

theorem marker_fromURL {url : String} {w : URLWorld} {st : List CSLJson} {m : FailedCSLJson}
    (h : (fromURL url w st).1 = .failed m) :
    m.status = "failed" ∧
      ((m.type_ = "URL" ∧ m.identifier = normalizeUrl url) ∨
        m.type_ = "DOI" ∨ m.type_ = "PMID" ∨ m.type_ = "PMCID") := by
  rcases fromURL_cases url w st with ⟨r, hr⟩ | hr | ⟨d, hr⟩ | ⟨p, hr⟩ | ⟨p, hr⟩ <;> rw [hr] at h
  · simp at h
  · have hm := (CSLJsonResponse.failed.injEq _ _ ▸ h).symm
    subst hm
    exact ⟨rfl, .inl ⟨rfl, rfl⟩⟩
  · have := marker_fromDOI h
    subst this
    exact ⟨rfl, .inr (.inl rfl)⟩
  · rcases marker_fromPMID h with hm | ⟨d, hm⟩ <;> subst hm
    · exact ⟨rfl, .inr (.inr (.inl rfl))⟩
    · exact ⟨rfl, .inr (.inl rfl)⟩
  · rcases marker_fromPMCID h with hm | ⟨d, hm⟩ <;> subst hm
    · exact ⟨rfl, .inr (.inr (.inr rfl))⟩
    · exact ⟨rfl, .inr (.inl rfl)⟩

/-- C1 (amended): no adapter ever throws past its boundary — each call
is a total function into a success record or a `status = "failed"`
marker.  For the non-redirecting adapters (`fromDOI`, `fromISBN`) the
marker always carries the original identifier and the adapter's own
type.  For `fromPMID`/`fromPMCID` the marker is either the adapter's
own (original identifier, own type) or the delegated DOI marker; for
`fromURL` it is the URL marker carrying the *scheme-normalized* url —
not necessarily the value passed in — or a delegated DOI/PMID/PMCID
marker. -/
theorem adapters_failure_contract :
    (∀ (doi : String) (w : DOIWorld) (st : List CSLJson) (m : FailedCSLJson),
      (fromDOI doi w st).1 = .failed m →
        m.identifier = doi ∧ m.type_ = "DOI" ∧ m.status = "failed") ∧
    (∀ (isbn : String) (w : ISBNWorld) (st : List CSLJson) (m : FailedCSLJson),
      (fromISBN isbn w st).1 = .failed m →
        m.identifier = isbn ∧ m.type_ = "ISBN" ∧ m.status = "failed") ∧
    (∀ (pmid : String) (w : PMWorld) (st : List CSLJson) (m : FailedCSLJson),
      (fromPMID pmid w st).1 = .failed m →
        m.status = "failed" ∧ ((m.identifier = pmid ∧ m.type_ = "PMID") ∨ m.type_ = "DOI")) ∧
    (∀ (pmcid : String) (w : PMWorld) (st : List CSLJson) (m : FailedCSLJson),
      (fromPMCID pmcid w st).1 = .failed m →
        m.status = "failed" ∧ ((m.identifier = pmcid ∧ m.type_ = "PMCID") ∨ m.type_ = "DOI")) ∧
    (∀ (url : String) (w : URLWorld) (st : List CSLJson) (m : FailedCSLJson),
      (fromURL url w st).1 = .failed m →
        m.status = "failed" ∧
          ((m.type_ = "URL" ∧ m.identifier = normalizeUrl url) ∨
            m.type_ = "DOI" ∨ m.type_ = "PMID" ∨ m.type_ = "PMCID")) := by
  refine ⟨?_, ?_, ?_, ?_, ?_⟩
  · intro doi w st m h
    have := marker_fromDOI h
    subst this
    exact ⟨rfl, rfl, rfl⟩
  · intro isbn w st m h
    have := marker_fromISBN h
    subst this
    exact ⟨rfl, rfl, rfl⟩
  · intro pmid w st m h
    rcases marker_fromPMID h with hm | ⟨d, hm⟩ <;> subst hm
    · exact ⟨rfl, .inl ⟨rfl, rfl⟩⟩
    · exact ⟨rfl, .inr rfl⟩
  · intro pmcid w st m h
    rcases marker_fromPMCID h with hm | ⟨d, hm⟩ <;> subst hm
    · exact ⟨rfl, .inl ⟨rfl, rfl⟩⟩
    · exact ⟨rfl, .inr rfl⟩
  · intro url w st m h
    exact marker_fromURL h

/-- Witness for `adapters_failure_contract`: a failing `fromISBN` call
yields the ISBN-typed marker with the original identifier. -/
def wISBN0 : ISBNWorld :=
  { uid := "uI", now := .invalid, dateParse := fun _ => .invalid, fetch := none }

/-- Witness theorem for `adapters_failure_contract`: the failing
`fromISBN` call produces the ISBN marker, and the contract applied to
it recovers the original identifier. -/
theorem adapters_failure_contract_witness :
    (fromISBN ("9783161484100") wISBN0 []).1 =
      .failed ⟨"uI", "9783161484100", "ISBN", "failed"⟩ ∧
    (FailedCSLJson.mk ("uI") ("9783161484100") ("ISBN") ("failed")).identifier =
      "9783161484100" :=
  ⟨by rfl, (adapters_failure_contract.2.1 ("9783161484100") wISBN0 [] _ (by rfl)).1⟩

/-- Counterexample to C1 as stated: `fromURL` called with the
scheme-less value `example.com` (as a forced `url:` identifier would
produce) fails on a rejected fetch, and the returned marker's
`identifier` is the reassigned, scheme-normalized
`https://example.com` — not the original value the caller passed. -/
theorem fromURL_marker_identifier_not_original :
    (fromURL ("example.com") wURL0 []).1 =
      .failed ⟨"uU", "https://example.com", "URL", "failed"⟩ ∧
    ("https://example.com" : String) ≠ "example.com" := by
  constructor
  · rfl
  · decide

/-! ## Claim C2: PMID/PMCID redirect through a response DOI -/

/-- C2 (amended): when a `fromPMID`/`fromPMCID` response parses, is
not an error-status body, and carries a truthy (non-empty) DOI string,
the call's result — both the returned value and the record-store
effect — is exactly that of invoking `fromDOI` on that DOI, so no
PMID/PMCID-shaped record is constructed or appended. -/
theorem pubmed_doi_redirect (w : PMWorld) (st : List CSLJson) (data : PubmedData)
    (d : String) (hf : w.fetch = some (some data)) (hs : data.status ≠ some ("error"))
    (hd : data.DOI = some d) (hne : d ≠ "") :
    (∀ pmid, fromPMID pmid w st = fromDOI d w.doiW st) ∧
    (∀ pmcid, fromPMCID pmcid w st = fromDOI d w.doiW st) := by
  have hsb : (data.status == some ("error")) = false := beq_eq_false_iff_ne.mpr hs
  have htr : jsTruthyStr data.DOI = some d := by
    rw [hd]
    simp [jsTruthyStr, hne]
  constructor <;> intro _
  · unfold fromPMID fromPMIDBody
    rw [hf]
    simp [hsb, htr]
  · unfold fromPMCID fromPMCIDBody
    rw [hf]
    simp [hsb, htr]

/-- A successfully-parsing PubMed body carrying a DOI. -/
def pmDataDOI : PubmedData := { DOI := some "10.1234/x", title := some "T" }
/-- A working DOI world for the redirected call. -/
def msgOK : CrossRefMsg :=
  { DOI := some "10.1234/x", containerTitle := some ["J"], title := some ["T"] }
/-- A DOI world whose fetch succeeds. -/
def wDOIok : DOIWorld := ⟨"uS", .valid 2025 1 2, some ⟨200, some ⟨some msgOK⟩⟩⟩
/-- A PMID world that carries a DOI-bearing body. -/
def wPMdoi : PMWorld := ⟨"uP1", .valid 2025 1 2, some (some pmDataDOI), wDOIok⟩

/-- Witness for `pubmed_doi_redirect`: a PMID response carrying DOI
`10.1234/x` makes `fromPMID` return exactly the `fromDOI` result. -/
theorem pubmed_doi_redirect_witness :
    fromPMID ("12345678") wPMdoi [] = fromDOI ("10.1234/x") wPMdoi.doiW [] :=
  (pubmed_doi_redirect wPMdoi [] pmDataDOI ("10.1234/x") rfl (by decide) rfl (by decide)).1
    ("12345678")

/-- A PubMed body with `status: "error"` that nevertheless carries a
DOI field. -/
def pmDataErr : PubmedData := { status := some "error", DOI := some "10.1234/x" }
/-- A PMID world delivering that body. -/
def wPMerr : PMWorld := ⟨"uP2", .invalid, some (some pmDataErr), wDOI0⟩

/-- Counterexample to C2 as stated: this response body *contains a DOI
field*, yet because the status check throws first, `fromPMID` returns
its own PMID-typed failure marker — not the result of `fromDOI` (which
would be DOI-typed). -/
theorem pubmed_doi_redirect_counterexample :
    (fromPMID ("1234567") wPMerr []).1 = .failed ⟨"uP2", "1234567", "PMID", "failed"⟩ ∧
    fromPMID ("1234567") wPMerr [] ≠ fromDOI ("10.1234/x") wPMerr.doiW [] := by
  constructor
  · rfl
  · decide

/-! ## Claim C10: catalog hit without authors fails as an ISBN marker -/

/-- C10: a search response with `numFound > 0` whose first document
has no `author_name` field makes `fromISBN` return an ISBN-typed
failure marker with the original identifier (the `.map` over the
absent author list throws and is caught at the boundary), never a
record with the author field merely omitted. -/
theorem isbn_no_authors_fails (isbn : String) (w : ISBNWorld) (st : List CSLJson)
    (data : OpenLibResp) (doc : OLDoc) (restDocs : List OLDoc)
    (hf : w.fetch = some (some data)) (hn : 0 < data.numFound)
    (hdocs : data.docs = doc :: restDocs) (ha : doc.authorName = none) :
    fromISBN isbn w st = (.failed ⟨w.uid, isbn, "ISBN", "failed"⟩, st) := by
  have hnz : (data.numFound == 0) = false := by
    simp only [beq_eq_false_iff_ne]
    omega
  unfold fromISBN fromISBNBody
  rw [hf]
  simp [hnz, hdocs, ha]

/-- An Open Library response with a hit but no `author_name`. -/
def olDocNoAuthors : OLDoc := { title := some "Some Book" }
/-- The surrounding response. -/
def olRespNoAuthors : OpenLibResp := ⟨1, [olDocNoAuthors]⟩
/-- The ISBN world delivering it. -/
def wISBNnoAuth : ISBNWorld :=
  { uid := "uI2", now := .invalid, dateParse := fun _ => .invalid,
    fetch := some (some olRespNoAuthors) }

/-- Witness for `isbn_no_authors_fails`. -/
theorem isbn_no_authors_fails_witness :
    fromISBN ("9783161484100") wISBNnoAuth [] =
      (.failed ⟨"uI2", "9783161484100", "ISBN", "failed"⟩, []) :=
  isbn_no_authors_fails ("9783161484100") wISBNnoAuth [] olRespNoAuthors olDocNoAuthors []
    rfl (by decide) rfl rfl

/-! ## Claim C7: the `issued` field of a successful `fromISBN` record -/

/-- C7 (amended): in every successful `fromISBN` resolution, `issued`
is present iff the first edition record carries a *truthy (non-empty)
first publish-date string*; when present it is `createDateObject`
applied to the JS `Date` parse of that string — for an unparseable
string this is the invalid-date object `[[NaN]]`, not an omitted
field. -/
theorem isbn_issued_characterization (isbn : String) (w : ISBNWorld) (st : List CSLJson)
    (data : OpenLibResp) (doc : OLDoc) (restDocs : List OLDoc) (names : List String)
    (hf : w.fetch = some (some data)) (hn : data.numFound ≠ 0)
    (hdocs : data.docs = doc :: restDocs) (ha : doc.authorName = some names) :
    ∃ obj, fromISBN isbn w st = (.success obj, st ++ [obj]) ∧
      obj.issued =
        (jsTruthyStr (((doc.editions.bind List.head?).bind (·.publishDate)).bind
          List.head?)).map (fun s => createDateObject (w.dateParse s)) := by
  have hnz : (data.numFound == 0) = false := beq_eq_false_iff_ne.mpr hn
  unfold fromISBN fromISBNBody
  rw [hf]
  simp only [hnz, hdocs, Bool.false_eq_true, if_false, List.head?_cons, Option.some_bind, ha]
  refine ⟨_, rfl, ?_⟩
  cases h : jsTruthyStr (((doc.editions.bind List.head?).bind (·.publishDate)).bind
    List.head?) <;> simp [h]

/-- Projection of the `issued` field out of an adapter result. -/
def responseIssued : CSLJsonResponse → Option DateObject
  | .success r => r.issued
  | .failed _ => none

/-- An edition whose publish date parses. -/
def olEditionGood : OLEdition := { publishDate := some ["2020"], isbn := some ["9783161484100"] }
/-- A document with authors and that edition. -/
def olDocGood : OLDoc :=
  { title := some "Some Book", authorName := some ["Ada Lovelace"],
    editions := some [olEditionGood] }
/-- A world whose date parser understands `2020`. -/
def wISBNgood : ISBNWorld :=
  { uid := "uI3", now := .valid 2025 1 2,
    dateParse := fun s => if s == "2020" then .valid 2020 1 1 else .invalid,
    fetch := some (some ⟨1, [olDocGood]⟩) }

/-- Witness for `isbn_issued_characterization`: a parseable publish
date yields `issued` with the parsed date. -/
theorem isbn_issued_characterization_witness :
    responseIssued (fromISBN ("9783161484100") wISBNgood []).1 =
      some (createDateObject (JsDate.valid 2020 1 1)) := by
  obtain ⟨obj, h1, h2⟩ := isbn_issued_characterization ("9783161484100") wISBNgood []
    ⟨1, [olDocGood]⟩ olDocGood [] (["Ada Lovelace"]) rfl (by decide) rfl rfl
  rw [h1]
  simp only [responseIssued, h2]
  rfl

/-- An edition whose publish date is non-empty but unparseable. -/
def olEditionBadDate : OLEdition := { publishDate := some ["garbage"] }
/-- A document with authors and that edition. -/
def olDocBadDate : OLDoc :=
  { title := some "Some Book", authorName := some ["Ada Lovelace"],
    editions := some [olEditionBadDate] }
/-- A world whose date parser rejects everything. -/
def wISBNbadDate : ISBNWorld :=
  { uid := "uI4", now := .invalid, dateParse := fun _ => .invalid,
    fetch := some (some ⟨1, [olDocBadDate]⟩) }

/-- Counterexample to C7 as stated: the publish date `garbage` does
not parse to a valid calendar date, yet the successful record's
`issued` field is *present*, set to the invalid-date object `[[NaN]]`
— it is not omitted. -/
theorem isbn_issued_invalid_date_not_omitted :
    responseIssued (fromISBN ("9783161484100") wISBNbadDate []).1 =
      some ⟨[[JsNum.nan]]⟩ ∧
    responseIssued (fromISBN ("9783161484100") wISBNbadDate []).1 ≠ none := by
  constructor
  · rfl
  · decide

/-! ## Claim C6: renderer failure is all-or-nothing -/

/-- C6: if the style file is a `404:` body, or the locale file is a
`404:` body, or the engine throws, `toBibliography` resolves to the
failure value `none` (it never rejects: it is a total function into
`Option`); and in general the result is either `none` or the *complete*
join of all of the engine's entries — never a partial bibliography. -/
theorem toBibliography_all_or_nothing (cslJson : List CSLJson)
    (style locale format : String) (w : RenderWorld) :
    ((is404 (w.styleBody style) = true ∨
      is404 (w.localeBody locale) = true ∨
      w.engineRefs = none) →
      toBibliography cslJson style locale format w = none) ∧
    (toBibliography cslJson style locale format w = none ∨
      ∃ refs, w.engineRefs = some refs ∧
        toBibliography cslJson style locale format w = some (joinRefs format refs)) := by
  constructor
  · intro h
    unfold toBibliography getCslFile runCiteproc getLocaleFile
    rcases h with h | h | h
    · simp [h]
    · rcases hs : is404 (w.styleBody style) <;> simp [hs, h]
    · rcases hs : is404 (w.styleBody style) <;>
        rcases hl : is404 (w.localeBody locale) <;> simp [hs, hl, h]
  · unfold toBibliography getCslFile runCiteproc getLocaleFile
    rcases hs : is404 (w.styleBody style)
    · rcases hl : is404 (w.localeBody locale)
      · rcases he : w.engineRefs with _ | refs
        · simp [hs, hl, he]
        · exact .inr ⟨refs, rfl, by simp [hs, hl, he]⟩
      · simp [hs, hl]
    · simp [hs]

/-- A render world whose style file is missing. -/
def wRender404 : RenderWorld :=
  { styleBody := fun _ => "404: Not Found", localeBody := fun _ => "<locale/>",
    engineRefs := some ["One."] }

/-- Witness for `toBibliography_all_or_nothing`: a missing style file
makes the whole render resolve to `none`. -/
theorem toBibliography_all_or_nothing_witness :
    toBibliography [] ("apa") ("en-US") ("text") wRender404 = none :=
  (toBibliography_all_or_nothing [] ("apa") ("en-US") ("text") wRender404).1
    (.inl (by decide))

/-! ## Claim C5: the renderer returns a single string, not a pair -/

/-- A fully working render world with two bibliography entries. -/
def wRenderOK : RenderWorld :=
  { styleBody := fun _ => "<style/>", localeBody := fun _ => "<locale/>",
    engineRefs := some ["Entry one.", "Entry two."] }

/-- C5 (code evaluated at the failing input): `toBibliography`
resolves a *single* joined string, and the destructuring
`const [references, intext] = await parser.toBibliography(...)` at
src/index.ts line 301 therefore binds `references` and `intext` to the
first two *characters* of that string — `"E"` and `"n"` — instead of a
reference list and an in-text citation list. -/
theorem toBibliography_not_a_pair :
    toBibliography [] ("apa") ("en-US") ("text") wRenderOK =
      some ("Entry one.Entry two.") ∧
    fbDestructured [] ("apa") ("en-US") ("text") wRenderOK =
      .ok (some ("E"), some ("n")) := by
  constructor
  · rfl
  · rfl

/-! ## Claim C8: config `format` validation -/

/-- C8 (amended): setting `format` to a value outside
{text, html, rtf, asciidoc} exits with code 1 and never touches the
persisted file; setting it to a value inside the set always exits with
code 0, and the key is persisted exactly when the file write succeeds —
a failed write is only logged, still exits 0, and leaves the persisted
file unchanged. -/
theorem updateConfig_format_contract (config : List (String × String)) (value : String) :
    (∀ writeOk, formatValid value = false →
      updateConfig config ("format") value writeOk = ⟨1, config⟩) ∧
    (formatValid value = true →
      updateConfig config ("format") value true = ⟨0, setKey config ("format") value⟩) ∧
    (formatValid value = true →
      updateConfig config ("format") value false = ⟨0, config⟩) := by
  refine ⟨?_, ?_, ?_⟩
  · intro writeOk h
    unfold updateConfig
    simp [h]
  · intro h
    unfold updateConfig
    simp [h]
  · intro h
    unfold updateConfig
    simp [h]

/-- Witness for `updateConfig_format_contract`: a valid value with a
succeeding write persists the key and exits 0; an invalid value exits
1 with the file untouched. -/
theorem updateConfig_format_contract_witness :
    updateConfig [] ("format") ("rtf") true = ⟨0, [(("format"), ("rtf"))]⟩ ∧
    updateConfig [] ("format") ("docx") true = ⟨1, []⟩ := by
  constructor
  · have h := (updateConfig_format_contract [] ("rtf")).2.1 (by decide)
    rw [h]
    decide
  · exact (updateConfig_format_contract [] ("docx")).1 true (by decide)

/-- Counterexample to C8 as stated: with an in-set value `html` whose
`writeFileSync` throws, the process still exits with code 0 but the
key is *not* written — the persisted file stays empty, contradicting
"the key is written and the process exits with code 0". -/
theorem updateConfig_write_failure_exits_zero :
    updateConfig [] ("format") ("html") false = ⟨0, []⟩ ∧
    ([] : List (String × String)) ≠ setKey [] ("format") ("html") := by
  constructor
  · rfl
  · decide
